import Mathlib

/-!
Verification model of the LanceDB vector-store adapter
(`src/vectorstore/lancedb/lancedb.rs`, `src/vectorstore/lancedb/builder.rs`).

The adapter is embedded shallowly:

* The columnar engine behind the `Connection` is modelled by an explicit
  `EngineState` (the list of tables with their rows) together with a `World`
  of opaque external capabilities: a fault flag per fallible engine call, the
  nearest-neighbor search oracle, the JSON codec used for metadata
  (`serde_json`), the random-UUID stream (`Uuid::new_v4`, one fresh string per
  draw), and `lancedb::connect`.
* Rust `f64`/`f32` values only flow through the adapter unchanged (embedding
  components, distances); they are modelled by `Rat`.
* Fallible Rust calls return `Except`; a `.unwrap()` on a failing value is a
  process abort and is modelled by the distinguished outcome `Outcome.panic`,
  kept separate from a returned error `Outcome.err`.
* Every engine call emits an `Event`, so "no call was issued" is provable from
  the event trace of an operation.
-/

namespace LanceDB

/-- Structured metadata value (the external `serde_json::Value`). The adapter
never inspects metadata values — they only pass through the opaque
serialize/deserialize capability — so the model keeps the atomic forms. -/
inductive JsonVal where
  | null : JsonVal
  | bool (b : Bool) : JsonVal
  | num (n : Int) : JsonVal
  | str (s : String) : JsonVal
deriving DecidableEq

/-- Metadata mapping of a Document (`HashMap<String, Value>` modelled as an
association list). -/
abbrev Metadata := List (String × JsonVal)

/-- Modelled from the spec: a `Document` is text plus metadata plus a
query-result score (`schemas::Document` is outside the given sources). -/
structure Document where
  page_content : String
  metadata : Metadata
  score : Rat
deriving DecidableEq

/-- An embedding vector (`Vec<f64>`). -/
abbrev Vec := List Rat

/-- Modelled from the spec: the embedding-provider capability
(`embedding::Embedder` is outside the given sources): an order-preserving
batch method and a single-query method, both fallible. -/
structure Embedder where
  embed_documents : List String → Except String (List Vec)
  embed_query : String → Except String Vec

/-- Modelled from the spec: the per-call options object
(`vectorstore::VecStoreOptions` is outside the given sources); only the
optional embedder override is consulted by this adapter. -/
structure VecStoreOptions where
  embedder : Option Embedder := none

/-- Arrow data types appearing in the adapter's fixed schema. -/
inductive DataT where
  | utf8 : DataT
  | float64 : DataT
  | fixedSizeList (innerName : String) (inner : DataT) (innerNullable : Bool) (len : Int) : DataT
deriving DecidableEq

/-- An arrow schema field. -/
structure Field where
  name : String
  dtype : DataT
  nullable : Bool
deriving DecidableEq

/-- An arrow schema: an ordered list of fields. -/
abbrev SchemaT := List Field

/-- A stored row (`VectorRecord`): id, text, JSON-serialized metadata, and the
embedding vector. -/
structure Row where
  id : String
  text : String
  metadata : String
  text_embedding : Vec
deriving DecidableEq

/-- One table of the engine: name, schema, whether a vector index was created,
and the stored rows in insertion order. -/
structure TableData where
  name : String
  schema : SchemaT
  indexed : Bool
  rows : List Row
deriving DecidableEq

/-- The state behind a `Connection`: the list of tables. -/
structure EngineState where
  tables : List TableData
deriving DecidableEq

/-- An opaque engine connection handle (`lancedb::Connection`). -/
structure Connection where
  id : Nat
deriving DecidableEq

/-- Engine-side errors (`lancedb::Error`), keeping the constructors the
adapter branches on. -/
inductive EngErr where
  | tableAlreadyExists (name : String)
  | tableNotFound (name : String)
  | generic
deriving DecidableEq

/-- Errors returned (as `Err`) by the adapter to its caller. -/
inductive StoreErr where
  | embedding (msg : String)
  | mismatch (msg : String)
  | engine (e : EngErr)
  | configuration (msg : String)
deriving DecidableEq

/-- Trace events: one per engine call issued, plus the non-fatal notice printed
during provisioning. -/
inductive Event where
  | createTable (name : String)
  | createIndex (name : String)
  | openTable (name : String)
  | tableNames
  | dropCall (name : String)
  | appendRows (name : String) (n : Nat)
  | queryCall (name : String)
  | notice (msg : String)
deriving DecidableEq

/-- Result of an adapter operation: a returned value, a returned error, or a
process abort caused by `.unwrap()` on a failing value. -/
inductive Outcome (α : Type) where
  | ok (a : α)
  | err (e : StoreErr)
  | panic
deriving DecidableEq

/-- The opaque external capabilities: one fault flag per fallible engine call
(true = that call fails with an unspecified engine error), the
nearest-neighbor search oracle (rows of the table, query vector, limit ↦ row
batches paired with reported distances), the metadata JSON codec, the
random-UUID stream, and `connect`. -/
structure World where
  create_fault : Bool := false
  index_fault : Bool := false
  open_fault : Bool := false
  schema_fault : Bool := false
  names_fault : Bool := false
  drop_fault : Bool := false
  append_fault : Bool := false
  nearest_fault : Bool := false
  query_fault : Bool := false
  search : List Row → Vec → Nat → List (List (Row × Rat))
  jsonEncode : Metadata → String
  jsonDecode : String → Option Metadata
  uuid : Nat → String
  connect : String → Except EngErr Connection

/-- Look a table up by name. -/
def EngineState.findTable (st : EngineState) (name : String) : Option TableData :=
  st.tables.find? (fun t => t.name == name)

/-- Replace the rows of the named table. -/
def EngineState.setRows (st : EngineState) (name : String) (rows : List Row) : EngineState :=
  ⟨st.tables.map (fun t => if t.name == name then { t with rows := rows } else t)⟩

/-- Mark the named table as carrying a vector index. -/
def EngineState.setIndexed (st : EngineState) (name : String) : EngineState :=
  ⟨st.tables.map (fun t => if t.name == name then { t with indexed := true } else t)⟩

namespace Engine

/-- `connection.create_empty_table(name, schema).execute()`: fails with
`TableAlreadyExists` when the name is taken, otherwise creates an empty,
unindexed table and returns its handle (modelled by the name). -/
def create_empty_table (w : World) (st : EngineState) (name : String) (schema : SchemaT) :
    Except EngErr String × EngineState × List Event :=
  if w.create_fault then (.error .generic, st, [.createTable name])
  else match st.findTable name with
    | some _ => (.error (.tableAlreadyExists name), st, [.createTable name])
    | none => (.ok name, ⟨st.tables ++ [⟨name, schema, false, []⟩]⟩, [.createTable name])

/-- `table.create_index(&["text_embedding"], Index::Auto).execute()`. -/
def create_index (w : World) (st : EngineState) (name : String) :
    Except EngErr Unit × EngineState × List Event :=
  if w.index_fault then (.error .generic, st, [.createIndex name])
  else match st.findTable name with
    | some _ => (.ok (), st.setIndexed name, [.createIndex name])
    | none => (.error (.tableNotFound name), st, [.createIndex name])

/-- `connection.open_table(name).execute()`: read-only, returns a snapshot
handle of the table. -/
def open_table (w : World) (st : EngineState) (name : String) :
    Except EngErr TableData × List Event :=
  if w.open_fault then (.error .generic, [.openTable name])
  else match st.findTable name with
    | some t => (.ok t, [.openTable name])
    | none => (.error (.tableNotFound name), [.openTable name])

/-- `connection.table_names().execute()`. -/
def table_names (w : World) (st : EngineState) :
    Except EngErr (List String) × List Event :=
  if w.names_fault then (.error .generic, [.tableNames])
  else (.ok (st.tables.map (fun t => t.name)), [.tableNames])

/-- `connection.drop_table(name)`: fails with `TableNotFound` when the table
is absent. -/
def drop_table (w : World) (st : EngineState) (name : String) :
    Except EngErr Unit × EngineState × List Event :=
  if w.drop_fault then (.error .generic, st, [.dropCall name])
  else match st.findTable name with
    | some _ => (.ok (), ⟨st.tables.filter (fun t => !(t.name == name))⟩, [.dropCall name])
    | none => (.error (.tableNotFound name), st, [.dropCall name])

/-- `table.add(batches).execute()`: appends the batch to the stored rows. -/
def append (w : World) (st : EngineState) (name : String) (rows : List Row) :
    Except EngErr Unit × EngineState × List Event :=
  if w.append_fault then (.error .generic, st, [.appendRows name rows.length])
  else match st.findTable name with
    | some t => (.ok (), st.setRows name (t.rows ++ rows), [.appendRows name rows.length])
    | none => (.error (.tableNotFound name), st, [.appendRows name rows.length])

/-- `table.query().nearest_to(v).column("text_embedding").distance_type(Cosine)
.limit(n).execute()` followed by `try_collect`: the engine answers with row
batches in stream order, each row paired with its reported `_distance`. The
ranking itself is the opaque `World.search` oracle. -/
def query (w : World) (tbl : TableData) (qvec : Vec) (limit : Nat) :
    Except EngErr (List (List (Row × Rat))) × List Event :=
  if w.query_fault then (.error .generic, [.queryCall tbl.name])
  else (.ok (w.search tbl.rows qvec limit), [.queryCall tbl.name])

end Engine

/-- The `Store` facade: connection handle, table name, configured vector
dimensionality, default embedder. -/
structure Store where
  connection : Connection
  table : String
  vector_dimensions : Int
  embedder : Embedder

/-- The fixed schema created by `create_table_if_not_exists`. -/
def schemaOf (dims : Int) : SchemaT :=
  [⟨"id", .utf8, false⟩,
   ⟨"text", .utf8, false⟩,
   ⟨"metadata", .utf8, false⟩,
   ⟨"text_embedding", .fixedSizeList "vector" .float64 false dims, false⟩]

/-- `Store::create_table_if_not_exists`: create the table with the fixed
schema then a vector index; on `TableAlreadyExists` print a notice and report
success; surface every other failure. -/
def Store.create_table_if_not_exists (w : World) (st : EngineState) (s : Store) :
    Outcome Unit × EngineState × List Event :=
  match Engine.create_empty_table w st s.table (schemaOf s.vector_dimensions) with
  | (.ok tname, st1, ev1) =>
      match Engine.create_index w st1 tname with
      | (.ok _, st2, ev2) => (.ok (), st2, ev1 ++ ev2)
      | (.error e, st2, ev2) => (.err (.engine e), st2, ev1 ++ ev2)
  | (.error e, st1, ev1) =>
      match e with
      | .tableAlreadyExists n =>
          (.ok (), st1, ev1 ++ [.notice ("lancedb : table `" ++ n ++ "` already exists")])
      | e => (.err (.engine e), st1, ev1)

/-- Models `Store::initialize`, which delegates to
`create_table_if_not_exists`. -/
def Store.initTable (w : World) (st : EngineState) (s : Store) :
    Outcome Unit × EngineState × List Event :=
  Store.create_table_if_not_exists w st s

/-- `Store::drop_table` as written in the source: list the table names, and
issue the engine drop only when the store's table is NOT in the list (the
existence check is inverted in the source). -/
def Store.drop_table (w : World) (st : EngineState) (s : Store) :
    Outcome Unit × EngineState × List Event :=
  match Engine.table_names w st with
  | (.error e, ev1) => (.err (.engine e), st, ev1)
  | (.ok tables, ev1) =>
      if !(tables.contains s.table) then
        match Engine.drop_table w st s.table with
        | (.error e, st2, ev2) => (.err (.engine e), st2, ev1 ++ ev2)
        | (.ok _, st2, ev2) => (.ok (), st2, ev1 ++ ev2)
      else (.ok (), st, ev1)

/-- The `VectorRecord` build loop of `add_documents`: one record per
(document, vector) pair in input order, each drawing the next fresh UUID from
the stream (`i` is the index of the next draw). -/
def mkRecords (w : World) : Nat → List (Document × Vec) → List Row
  | _, [] => []
  | i, (d, v) :: rest =>
      ⟨w.uuid i, d.page_content, w.jsonEncode d.metadata, v⟩ :: mkRecords w (i + 1) rest

/-- `Store::add_documents`: embed all texts in one batch call, fail on a
vector/document count mismatch before any table access, open the table (and
read its schema), build the records, open the table again (the source opens it
twice), encode the arrow batch — whose fixed-size-list construction aborts
when the total number of vector components differs from
`records × vector_dimensions` (`RecordBatch::try_new(...).unwrap()`) — and
append it, returning the generated ids. -/
def Store.add_documents (w : World) (st : EngineState) (s : Store)
    (docs : List Document) (opt : VecStoreOptions) :
    Outcome (List String) × EngineState × List Event :=
  match (opt.embedder.getD s.embedder).embed_documents (docs.map (fun d => d.page_content)) with
  | .error e => (.err (.embedding e), st, [])
  | .ok vectors =>
    if vectors.length ≠ docs.length then
      (.err (.mismatch "Number of vectors and documents do not match"), st, [])
    else
      match Engine.open_table w st s.table with
      | (.error e, ev1) => (.err (.engine e), st, ev1)
      | (.ok _tb, ev1) =>
        if w.schema_fault then (.err (.engine .generic), st, ev1)
        else
          match Engine.open_table w st s.table with
          | (.error e, ev2) => (.err (.engine e), st, ev1 ++ ev2)
          | (.ok _tb2, ev2) =>
            if ((vectors.map (fun v => (v.length : Int))).sum
                ≠ ((mkRecords w 0 (docs.zip vectors)).length : Int) * s.vector_dimensions) then
              (.panic, st, ev1 ++ ev2)
            else
              match Engine.append w st s.table (mkRecords w 0 (docs.zip vectors)) with
              | (.ok _, st3, ev3) =>
                  (.ok ((mkRecords w 0 (docs.zip vectors)).map (fun r => r.id)), st3,
                    ev1 ++ ev2 ++ ev3)
              | (.error e, st3, ev3) => (.err (.engine e), st3, ev1 ++ ev2 ++ ev3)

/-- The decode loop of `similarity_search` over the concatenated rows of all
returned batches (outer loop: batches in stream order; inner loop: rows in
index order): each row's `metadata` string is parsed back
(`serde_json::from_str(...).unwrap()` — a parse failure aborts, modelled by
`none`), and the reported distance is copied verbatim into `score`. -/
def decodeRows (w : World) : List (Row × Rat) → Option (List Document)
  | [] => some []
  | rd :: rest =>
    match w.jsonDecode rd.1.metadata with
    | none => none
    | some md =>
      match decodeRows w rest with
      | none => none
      | some ds => some ({ page_content := rd.1.text, metadata := md, score := rd.2 } :: ds)

/-- `Store::similarity_search`: embed the query with the store's own embedder
(the options argument is bound as `_opt` and never consulted), open the table,
build and run the nearest-neighbor query — `nearest_to(...).unwrap()` and
`execute()/try_collect().unwrap()` abort on failure — then decode the rows in
engine order. -/
def Store.similarity_search (w : World) (st : EngineState) (s : Store)
    (query : String) (limit : Nat) (_opt : VecStoreOptions) :
    Outcome (List Document) × EngineState × List Event :=
  match s.embedder.embed_query query with
  | .error e => (.err (.embedding e), st, [])
  | .ok query_vector =>
    match Engine.open_table w st s.table with
    | (.error e, ev1) => (.err (.engine e), st, ev1)
    | (.ok tbl, ev1) =>
      if w.nearest_fault then (.panic, st, ev1)
      else
        match Engine.query w tbl query_vector limit with
        | (.error _, ev2) => (.panic, st, ev1 ++ ev2)
        | (.ok batches, ev2) =>
          match decodeRows w batches.flatten with
          | none => (.panic, st, ev1 ++ ev2)
          | some items => (.ok items, st, ev1 ++ ev2)

/-- The builder's configuration record (`StoreBuilder`). -/
structure StoreBuilder where
  connection : Option Connection
  connection_url : Option String
  table : String
  vector_dimensions : Int
  embedder : Option Embedder

/-- `StoreBuilder::new`: no connection, no URL, table `"documents"`,
dimensions 0, no embedder. -/
def StoreBuilder.new : StoreBuilder :=
  ⟨none, none, "documents", 0, none⟩

/-- Models the `connection` setter: sets the handle and clears the URL. -/
def StoreBuilder.setConnection (b : StoreBuilder) (c : Connection) : StoreBuilder :=
  { b with connection := some c, connection_url := none }

/-- Models the `connection_url` setter: sets the URL and clears the handle. -/
def StoreBuilder.setConnectionUrl (b : StoreBuilder) (url : String) : StoreBuilder :=
  { b with connection_url := some url, connection := none }

/-- Models the `table` setter. -/
def StoreBuilder.setTable (b : StoreBuilder) (t : String) : StoreBuilder :=
  { b with table := t }

/-- Models the `vector_dimensions` setter. -/
def StoreBuilder.setVectorDimensions (b : StoreBuilder) (d : Int) : StoreBuilder :=
  { b with vector_dimensions := d }

/-- Models the `embedder` setter. -/
def StoreBuilder.setEmbedder (b : StoreBuilder) (e : Embedder) : StoreBuilder :=
  { b with embedder := some e }

/-- `StoreBuilder::build`: fail fast when no embedder is configured; default
the connection URL to `"./tmp/tmp_lancedb"` when unset; reuse the configured
connection handle, otherwise `connect` to the URL (the source's later
`unwrap()`s are guarded by these checks). -/
def StoreBuilder.build (w : World) (b : StoreBuilder) : Except StoreErr Store :=
  match b.embedder with
  | none => .error (.configuration "Embedder is required")
  | some emb =>
    match b.connection with
    | some c => .ok ⟨c, b.table, b.vector_dimensions, emb⟩
    | none =>
      match w.connect (b.connection_url.getD "./tmp/tmp_lancedb") with
      | .error e => .error (.engine e)
      | .ok c => .ok ⟨c, b.table, b.vector_dimensions, emb⟩

/-! Concrete capability instances used to evaluate the model on closed
inputs. -/

/-- An embedder answering every text with the one-component vector `[0]`. -/
def embed0 : Embedder :=
  ⟨fun ts => .ok (ts.map (fun _ => [(0 : Rat)])), fun _ => .ok [(0 : Rat)]⟩

/-- An embedder whose batch method always answers with zero vectors,
regardless of how many texts were passed. -/
def embedShort : Embedder :=
  ⟨fun _ => .ok [], fun _ => .ok []⟩

/-- An embedder that always fails. -/
def embedFail : Embedder :=
  ⟨fun _ => .error "provider down", fun _ => .error "provider down"⟩

/-- A fault-free world: the search oracle answers with one batch holding the
first `limit` stored rows at distance 0, the metadata codec is constant, the
UUID stream yields `"id-<n>"`, and `connect` always succeeds. -/
def W0 : World :=
  { search := fun rows _ lim => [(rows.take lim).map (fun r => (r, (0 : Rat)))]
    jsonEncode := fun _ => "enc"
    jsonDecode := fun _ => some [("topic", JsonVal.str "geography")]
    uuid := fun i => "id-" ++ toString i
    connect := fun _ => .ok ⟨0⟩ }

/-- `W0` with a failing nearest-neighbor query execution. -/
def Wq : World := { W0 with query_fault := true }

/-- `W0` with a failing `open_table`. -/
def Wopen : World := { W0 with open_fault := true }

/-- `W0` with a failing `create_empty_table` (a failure other than
"table already exists"). -/
def Wcreate : World := { W0 with create_fault := true }

/-- `W0` with a metadata decoder that rejects every stored string. -/
def Wbadmeta : World := { W0 with jsonDecode := fun _ => none }

/-- A store over table `"documents"` with one-dimensional vectors. -/
def s0 : Store := ⟨⟨0⟩, "documents", 1, embed0⟩

/-- An engine state with no tables at all. -/
def stEmpty : EngineState := ⟨[]⟩

/-- An engine state in which table `"documents"` exists and has no rows. -/
def stPresent : EngineState := ⟨[⟨"documents", schemaOf 1, true, []⟩]⟩

/-- A sample stored row. -/
def row1 : Row := ⟨"i", "t", "m", [(0 : Rat)]⟩

/-- An engine state in which table `"documents"` holds the single row
`row1`. -/
def stRows : EngineState := ⟨[⟨"documents", schemaOf 1, true, [row1]⟩]⟩

/-- The document of the round-trip property: Paris text with topic
metadata. -/
def parisDoc : Document :=
  ⟨"Paris is the capital of France.", [("topic", JsonVal.str "geography")], 0⟩

/-- Two sample documents with empty metadata. -/
def docs2 : List Document := [⟨"a", [], 0⟩, ⟨"b", [], 0⟩]

/-- Claim C1: evaluation of `Store.drop_table` at the failing input. When the table
is present in the connection's table list, the source issues no engine drop
call (no `dropCall` event) and returns success with the table left in place;
when the table is absent, it does issue the engine drop call, which fails with
`TableNotFound`. The existence check is inverted relative to the claim, which
requires the drop call exactly when the table is present. -/
theorem drop_table_inverted_check :
    Store.drop_table W0 stPresent s0 = (.ok (), stPresent, [.tableNames]) ∧
    Store.drop_table W0 stEmpty s0 =
      (.err (.engine (.tableNotFound "documents")), stEmpty,
        [.tableNames, .dropCall "documents"]) := by
  constructor <;> rfl

/-- Claim C2: when the embedding capability answers with a vector count different
from the document count, `add_documents` returns the mismatch error with the
table state unchanged and an empty engine-call trace, so no open-table or
append call was issued by this ingestion. -/
theorem add_documents_count_mismatch (w : World) (st : EngineState) (s : Store)
    (docs : List Document) (opt : VecStoreOptions) (vectors : List Vec)
    (hemb : (opt.embedder.getD s.embedder).embed_documents
        (docs.map (fun d => d.page_content)) = .ok vectors)
    (hne : vectors.length ≠ docs.length) :
    Store.add_documents w st s docs opt =
      (.err (.mismatch "Number of vectors and documents do not match"), st, []) := by
  unfold Store.add_documents
  rw [hemb]
  simp [hne]

/-- Closed instance of `add_documents_count_mismatch`: two documents, an
embedder override answering with zero vectors. -/
theorem add_documents_count_mismatch_w :
    Store.add_documents W0 stPresent s0 docs2 ⟨some embedShort⟩ =
      (.err (.mismatch "Number of vectors and documents do not match"), stPresent, []) :=
  add_documents_count_mismatch W0 stPresent s0 docs2 ⟨some embedShort⟩ [] rfl (by decide)

/-- Claim C9: `similarity_search` never consults the per-call options object, so any
two overrides give identical results, while `add_documents` with an embedder
override behaves exactly like a store whose default embedder is the override
and no override. -/
theorem query_embedder_override_ignored (w : World) (st : EngineState) (s : Store)
    (docs : List Document) (q : String) (limit : Nat)
    (o1 o2 : VecStoreOptions) (e : Embedder) :
    Store.similarity_search w st s q limit o1 = Store.similarity_search w st s q limit o2 ∧
    Store.add_documents w st s docs ⟨some e⟩ =
      Store.add_documents w st ⟨s.connection, s.table, s.vector_dimensions, e⟩ docs ⟨none⟩ :=
  ⟨rfl, rfl⟩

/-- Claim C10: with neither a connection handle nor a URL configured but an embedder
set, `build` does not fail a configuration check: it connects to the default
URL `"./tmp/tmp_lancedb"` and succeeds whenever that connection succeeds. -/
theorem build_defaults_to_tmp_url (w : World) (b : StoreBuilder) (e : Embedder) (c : Connection)
    (hconn : b.connection = none) (hurl : b.connection_url = none)
    (hemb : b.embedder = some e)
    (hc : w.connect "./tmp/tmp_lancedb" = .ok c) :
    StoreBuilder.build w b = .ok ⟨c, b.table, b.vector_dimensions, e⟩ := by
  unfold StoreBuilder.build
  rw [hemb, hconn, hurl]
  simp [hc]

/-- Closed instance of `build_defaults_to_tmp_url`: a fresh builder with only
an embedder set builds against the default URL. -/
theorem build_defaults_to_tmp_url_w :
    StoreBuilder.build W0 (StoreBuilder.new.setEmbedder embed0) =
      .ok ⟨⟨0⟩, "documents", 0, embed0⟩ :=
  build_defaults_to_tmp_url W0 (StoreBuilder.new.setEmbedder embed0) embed0 ⟨0⟩ rfl rfl rfl rfl

/-- Claim C5: on a fresh store (no tables) with a healthy engine, the first
`initialize` run succeeds and creates exactly one table, carrying the fixed
schema and the vector index; the second run sees `TableAlreadyExists`, treats
it as success, emits only the non-fatal notice next to its create attempt
(no index creation, no schema alteration or validation), and leaves the state
untouched; and any creation failure other than "already exists" is returned
as an error. -/
theorem initTable_idempotent (w : World) (s : Store)
    (hc : w.create_fault = false) (hi : w.index_fault = false) :
    (Store.initTable w ⟨[]⟩ s).1 = .ok () ∧
    (Store.initTable w ⟨[]⟩ s).2.1 =
      ⟨[⟨s.table, schemaOf s.vector_dimensions, true, []⟩]⟩ ∧
    (Store.initTable w (Store.initTable w ⟨[]⟩ s).2.1 s).1 = .ok () ∧
    (Store.initTable w (Store.initTable w ⟨[]⟩ s).2.1 s).2.1 = (Store.initTable w ⟨[]⟩ s).2.1 ∧
    (Store.initTable w (Store.initTable w ⟨[]⟩ s).2.1 s).2.2 =
      [.createTable s.table,
       .notice ("lancedb : table `" ++ s.table ++ "` already exists")] ∧
    (∀ w' : World, w'.create_fault = true →
      (Store.initTable w' ⟨[]⟩ s).1 = .err (.engine .generic)) := by
  have h1 : Store.initTable w ⟨[]⟩ s =
      (.ok (), ⟨[⟨s.table, schemaOf s.vector_dimensions, true, []⟩]⟩,
       [.createTable s.table, .createIndex s.table]) := by
    simp [Store.initTable, Store.create_table_if_not_exists, Engine.create_empty_table,
      Engine.create_index, EngineState.findTable, EngineState.setIndexed, hc, hi]
  have h2 : Store.initTable w ⟨[⟨s.table, schemaOf s.vector_dimensions, true, []⟩]⟩ s =
      (.ok (), ⟨[⟨s.table, schemaOf s.vector_dimensions, true, []⟩]⟩,
       [.createTable s.table,
        .notice ("lancedb : table `" ++ s.table ++ "` already exists")]) := by
    simp [Store.initTable, Store.create_table_if_not_exists, Engine.create_empty_table,
      EngineState.findTable, hc]
  refine ⟨by rw [h1], by rw [h1], by rw [h1]; rw [h2], by rw [h1]; rw [h2],
    by rw [h1]; rw [h2], ?_⟩
  intro w' hcf
  simp [Store.initTable, Store.create_table_if_not_exists, Engine.create_empty_table, hcf]

/-- Closed instance of `initTable_idempotent`: the fault-free world succeeds,
and the world whose create call fails with a non-"already exists" error gets
that error back. -/
theorem initTable_idempotent_w :
    (Store.initTable W0 (⟨[]⟩ : EngineState) s0).1 = .ok () ∧
    (Store.initTable Wcreate (⟨[]⟩ : EngineState) s0).1 = .err (.engine .generic) :=
  ⟨(initTable_idempotent W0 s0 rfl rfl).1,
   (initTable_idempotent W0 s0 rfl rfl).2.2.2.2.2 Wcreate rfl⟩

/-- Claim C3, amended: failures are surfaced to the immediate caller as returned
error values, with no retry — embedding and open-table failure in
`add_documents`, embedding and open-table failure in `similarity_search` — and
`initialize` and `drop_table` never abort ("table already exists" during
provisioning being success); EXCEPT that in `similarity_search` a
nearest-neighbor query execution/collection failure, and a stored metadata
string the decoder rejects, abort the process (the `.unwrap()` panics,
modelled by `Outcome.panic`) instead of being returned as errors. -/
theorem error_propagation_amended (w : World) (st : EngineState) (s : Store)
    (docs : List Document) (opt : VecStoreOptions) (q : String) (limit : Nat) :
    (∀ msg, (opt.embedder.getD s.embedder).embed_documents
        (docs.map (fun d => d.page_content)) = .error msg →
      Store.add_documents w st s docs opt = (.err (.embedding msg), st, [])) ∧
    (∀ msg, s.embedder.embed_query q = .error msg →
      Store.similarity_search w st s q limit opt = (.err (.embedding msg), st, [])) ∧
    (∀ qvec, s.embedder.embed_query q = .ok qvec → w.open_fault = true →
      Store.similarity_search w st s q limit opt =
        (.err (.engine .generic), st, [.openTable s.table])) ∧
    (Store.initTable w st s).1 ≠ .panic ∧
    (Store.drop_table w st s).1 ≠ .panic ∧
    (∀ qvec tbl, s.embedder.embed_query q = .ok qvec → w.open_fault = false →
      st.findTable s.table = some tbl → w.nearest_fault = false → w.query_fault = true →
      Store.similarity_search w st s q limit opt =
        (.panic, st, [.openTable s.table, .queryCall tbl.name])) ∧
    (∀ qvec tbl, s.embedder.embed_query q = .ok qvec → w.open_fault = false →
      st.findTable s.table = some tbl → w.nearest_fault = false → w.query_fault = false →
      decodeRows w ((w.search tbl.rows qvec limit).flatten) = none →
      (Store.similarity_search w st s q limit opt).1 = .panic) ∧
    (∀ vectors, (opt.embedder.getD s.embedder).embed_documents
        (docs.map (fun d => d.page_content)) = .ok vectors →
      vectors.length = docs.length → w.open_fault = true →
      Store.add_documents w st s docs opt =
        (.err (.engine .generic), st, [.openTable s.table])) := by
  refine ⟨?_, ?_, ?_, ?_, ?_, ?_, ?_, ?_⟩
  · intro msg hm
    unfold Store.add_documents
    rw [hm]
  · intro msg hm
    unfold Store.similarity_search
    rw [hm]
  · intro qvec hq hopen
    unfold Store.similarity_search
    rw [hq]
    simp [Engine.open_table, hopen]
  · unfold Store.initTable Store.create_table_if_not_exists
    split
    · split <;> simp
    · split <;> simp
  · unfold Store.drop_table
    split
    · simp
    · split
      · split <;> simp
      · simp
  · intro qvec tbl hq hopen htbl hnf hqf
    unfold Store.similarity_search
    rw [hq]
    simp [Engine.open_table, hopen, htbl, hnf, Engine.query, hqf]
  · intro qvec tbl hq hopen htbl hnf hqf hdec
    unfold Store.similarity_search
    rw [hq]
    simp [Engine.open_table, hopen, htbl, hnf, Engine.query, hqf, hdec]
  · intro vectors hok hlen hopen
    unfold Store.add_documents
    rw [hok]
    simp [hlen, Engine.open_table, hopen]

/-- Claim C3 counterexample: with the table present, a healthy embedder, and a
healthy open call, a failing nearest-neighbor query execution makes
`similarity_search` end in the aborting outcome (the model of the source's
`.unwrap()` on the failed query), not in a returned error as the claim
states. -/
theorem similarity_search_aborts_on_query_failure :
    (Store.similarity_search Wq stPresent s0 "q" 1 ⟨none⟩).1 = Outcome.panic := by
  rfl

/-- Closed instance of `error_propagation_amended`, exercising the returned
errors (embedding failure, open-table failure), the never-aborting
provisioning and drop operations, and the two aborting cases of
`similarity_search` (query failure, undecodable stored metadata). -/
theorem error_propagation_amended_w :
    Store.add_documents W0 stPresent s0 docs2 ⟨some embedFail⟩ =
      (.err (.embedding "provider down"), stPresent, []) ∧
    Store.similarity_search Wopen stPresent s0 "q" 1 ⟨none⟩ =
      (.err (.engine .generic), stPresent, [.openTable "documents"]) ∧
    (Store.initTable W0 stPresent s0).1 ≠ .panic ∧
    (Store.drop_table W0 stPresent s0).1 ≠ .panic ∧
    Store.similarity_search Wq stPresent s0 "q" 1 ⟨none⟩ =
      (.panic, stPresent, [.openTable "documents", .queryCall "documents"]) ∧
    (Store.similarity_search Wbadmeta stRows s0 "q" 1 ⟨none⟩).1 = .panic ∧
    Store.add_documents Wopen stPresent s0 docs2 ⟨none⟩ =
      (.err (.engine .generic), stPresent, [.openTable "documents"]) := by
  refine ⟨(error_propagation_amended W0 stPresent s0 docs2 ⟨some embedFail⟩ "q" 1).1
      "provider down" rfl,
    (error_propagation_amended Wopen stPresent s0 docs2 ⟨none⟩ "q" 1).2.2.1
      [(0 : Rat)] rfl rfl,
    (error_propagation_amended W0 stPresent s0 docs2 ⟨none⟩ "q" 1).2.2.2.1,
    (error_propagation_amended W0 stPresent s0 docs2 ⟨none⟩ "q" 1).2.2.2.2.1,
    (error_propagation_amended Wq stPresent s0 docs2 ⟨none⟩ "q" 1).2.2.2.2.2.1
      [(0 : Rat)] ⟨"documents", schemaOf 1, true, []⟩ rfl rfl rfl rfl rfl,
    (error_propagation_amended Wbadmeta stRows s0 docs2 ⟨none⟩ "q" 1).2.2.2.2.2.2.1
      [(0 : Rat)] ⟨"documents", schemaOf 1, true, [row1]⟩ rfl rfl rfl rfl rfl rfl,
    (error_propagation_amended Wopen stPresent s0 docs2 ⟨none⟩ "q" 1).2.2.2.2.2.2.2
      [[(0 : Rat)], [(0 : Rat)]] rfl (by decide) rfl⟩

/-- Each (document, vector) pair yields exactly one record. -/
theorem mkRecords_length (w : World) :
    ∀ (k : Nat) (ps : List (Document × Vec)), (mkRecords w k ps).length = ps.length
  | _, [] => rfl
  | k, (_, _) :: rest => by
      simp [mkRecords, mkRecords_length w (k + 1) rest]

/-- The ids of the records built from draw index `k` onward are the UUID
stream evaluated on `[k, …, k + n)`. -/
theorem mkRecords_map_id (w : World) :
    ∀ (k : Nat) (ps : List (Document × Vec)),
      (mkRecords w k ps).map (fun r => r.id) = (List.range' k ps.length).map w.uuid
  | _, [] => rfl
  | k, (_, _) :: rest => by
      simp [mkRecords, List.range'_succ, mkRecords_map_id w (k + 1) rest]

/-- The record at position `i` (when building from draw index `k`) carries
UUID `k + i` and the text, encoded metadata and vector of the `i`-th input
pair. -/
theorem mkRecords_get (w : World) :
    ∀ (k : Nat) (ps : List (Document × Vec)) (i : Nat)
      (hi : i < (mkRecords w k ps).length) (hp : i < ps.length),
      (mkRecords w k ps).get ⟨i, hi⟩ =
        ⟨w.uuid (k + i), (ps.get ⟨i, hp⟩).1.page_content,
         w.jsonEncode (ps.get ⟨i, hp⟩).1.metadata, (ps.get ⟨i, hp⟩).2⟩
  | _, [], _, _, hp => by simp at hp
  | k, (d, v) :: rest, 0, hi, hp => by simp [mkRecords]
  | k, (d, v) :: rest, i + 1, hi, hp => by
      have hi' : i < (mkRecords w (k + 1) rest).length := by
        simpa [mkRecords] using hi
      have hp' : i < rest.length := by simpa using hp
      have ih := mkRecords_get w (k + 1) rest i hi' hp'
      have harg : k + 1 + i = k + (i + 1) := by omega
      rw [harg] at ih
      simp only [mkRecords, List.get_cons_succ, ih]

/-- Claim C4: when embedding answers with exactly one vector per document, the
open/append calls succeed and the arrow encoding is consistent,
`add_documents` returns one freshly drawn UUID per document aligned with
input order; under the UUID stream's freshness contract (injective,
non-empty draws) the returned ids are distinct and non-empty, and the rows
appended to the table align index by index with the input documents. -/
theorem add_documents_ids (w : World) (st : EngineState) (s : Store)
    (docs : List Document) (opt : VecStoreOptions) (vectors : List Vec) (tbl : TableData)
    (hemb : (opt.embedder.getD s.embedder).embed_documents
        (docs.map (fun d => d.page_content)) = .ok vectors)
    (hlen : vectors.length = docs.length)
    (hopen : w.open_fault = false) (hschema : w.schema_fault = false)
    (htbl : st.findTable s.table = some tbl)
    (happ : w.append_fault = false)
    (hdim : (vectors.map (fun v => (v.length : Int))).sum =
      (docs.length : Int) * s.vector_dimensions)
    (hinj : ∀ i < docs.length, ∀ j < docs.length, w.uuid i = w.uuid j → i = j)
    (hne : ∀ i < docs.length, w.uuid i ≠ "") :
    (Store.add_documents w st s docs opt).1 =
      .ok ((List.range docs.length).map w.uuid) ∧
    ((List.range docs.length).map w.uuid).length = docs.length ∧
    ((List.range docs.length).map w.uuid).Nodup ∧
    (∀ a ∈ (List.range docs.length).map w.uuid, a ≠ "") ∧
    (Store.add_documents w st s docs opt).2.1 =
      st.setRows s.table (tbl.rows ++ mkRecords w 0 (docs.zip vectors)) ∧
    (∀ i (hi : i < (mkRecords w 0 (docs.zip vectors)).length) (hd : i < docs.length)
       (hv : i < vectors.length),
      (mkRecords w 0 (docs.zip vectors)).get ⟨i, hi⟩ =
        ⟨w.uuid i, (docs.get ⟨i, hd⟩).page_content,
         w.jsonEncode ((docs.get ⟨i, hd⟩).metadata), vectors.get ⟨i, hv⟩⟩) := by
  have hzl : (docs.zip vectors).length = docs.length := by
    simp [List.length_zip, hlen]
  have hrl : (mkRecords w 0 (docs.zip vectors)).length = docs.length := by
    rw [mkRecords_length, hzl]
  have hids : (mkRecords w 0 (docs.zip vectors)).map (fun r => r.id) =
      (List.range docs.length).map w.uuid := by
    rw [mkRecords_map_id, hzl, ← List.range_eq_range']
  have hrun : Store.add_documents w st s docs opt =
      (.ok ((mkRecords w 0 (docs.zip vectors)).map (fun r => r.id)),
       st.setRows s.table (tbl.rows ++ mkRecords w 0 (docs.zip vectors)),
       [.openTable s.table, .openTable s.table,
        .appendRows s.table (mkRecords w 0 (docs.zip vectors)).length]) := by
    unfold Store.add_documents
    rw [hemb]
    simp [hlen, Engine.open_table, hopen, htbl, hschema, Engine.append, happ, hrl, hdim]
  refine ⟨by rw [hrun, hids], by simp, ?_, ?_, by rw [hrun], ?_⟩
  · refine List.Nodup.map_on ?_ (List.nodup_range docs.length)
    intro x hx y hy hxy
    exact hinj x (List.mem_range.mp hx) y (List.mem_range.mp hy) hxy
  · intro a ha
    rcases List.mem_map.mp ha with ⟨i, hi, rfl⟩
    exact hne i (List.mem_range.mp hi)
  · intro i hi hd hv
    have hp : i < (docs.zip vectors).length := by rw [hzl]; exact hd
    rw [mkRecords_get w 0 (docs.zip vectors) i hi hp]
    simp [List.get_zip]

/-- Closed instance of `add_documents_ids`: two documents, two vectors, two
distinct non-empty ids returned. -/
theorem add_documents_ids_w :
    (Store.add_documents W0 stPresent s0 docs2 ⟨none⟩).1 =
      .ok ((List.range docs2.length).map W0.uuid) ∧
    ((List.range docs2.length).map W0.uuid).Nodup ∧
    (∀ a ∈ (List.range docs2.length).map W0.uuid, a ≠ "") := by
  have h := add_documents_ids W0 stPresent s0 docs2 ⟨none⟩ [[(0 : Rat)], [(0 : Rat)]]
    ⟨"documents", schemaOf 1, true, []⟩ rfl (by decide) rfl rfl rfl rfl (by decide)
    (by decide) (by decide)
  exact ⟨h.1, h.2.2.1, h.2.2.2.1⟩

/-- Unfolding equation of `decodeRows` on a non-empty row list. -/
theorem decodeRows_cons (w : World) (rd : Row × Rat) (rest : List (Row × Rat)) :
    decodeRows w (rd :: rest) =
      match w.jsonDecode rd.1.metadata with
      | none => none
      | some md =>
        match decodeRows w rest with
        | none => none
        | some ds => some ({ page_content := rd.1.text, metadata := md, score := rd.2 } :: ds) :=
  rfl

/-- A successful decode yields one Document per returned row. -/
theorem decodeRows_length (w : World) :
    ∀ (rds : List (Row × Rat)) (ds : List Document),
      decodeRows w rds = some ds → ds.length = rds.length
  | [], ds, h => by
      simp only [decodeRows, Option.some.injEq] at h
      subst h
      rfl
  | rd :: rest, ds, h => by
      cases hmd : w.jsonDecode rd.1.metadata with
      | none => rw [decodeRows_cons, hmd] at h; simp at h
      | some md =>
        cases hrec : decodeRows w rest with
        | none => rw [decodeRows_cons, hmd, hrec] at h; simp at h
        | some ds2 =>
          rw [decodeRows_cons, hmd, hrec] at h
          simp only [Option.some.injEq] at h
          subst h
          simp [decodeRows_length w rest ds2 hrec]

/-- A successful decode is positional: the `i`-th Document carries the text
and the reported distance of the `i`-th returned row. -/
theorem decodeRows_get (w : World) :
    ∀ (rds : List (Row × Rat)) (ds : List Document),
      decodeRows w rds = some ds →
      ∀ (i : Nat) (hi : i < ds.length) (hj : i < rds.length),
        (ds.get ⟨i, hi⟩).score = (rds.get ⟨i, hj⟩).2 ∧
        (ds.get ⟨i, hi⟩).page_content = (rds.get ⟨i, hj⟩).1.text
  | [], _, _, _, _, hj => by simp at hj
  | rd :: rest, ds, h, i, hi, hj => by
      cases hmd : w.jsonDecode rd.1.metadata with
      | none => rw [decodeRows_cons, hmd] at h; simp at h
      | some md =>
        cases hrec : decodeRows w rest with
        | none => rw [decodeRows_cons, hmd, hrec] at h; simp at h
        | some ds2 =>
          rw [decodeRows_cons, hmd, hrec] at h
          simp only [Option.some.injEq] at h
          subst h
          cases i with
          | zero => exact ⟨rfl, rfl⟩
          | succ i =>
            have hi' : i < ds2.length := by simpa using hi
            have hj' : i < rest.length := by simpa using hj
            simpa [List.get_cons_succ] using decodeRows_get w rest ds2 hrec i hi' hj'

/-- Claim C6: on the success path, `similarity_search` returns the decoded engine
answer verbatim: one Document per concatenated row (batches in stream order,
rows in index order) with no re-sorting, and each Document's score is exactly
the engine-reported distance of the row at the same position, with no
normalization. -/
theorem similarity_search_order_and_score (w : World) (st : EngineState) (s : Store)
    (q : String) (limit : Nat) (opt : VecStoreOptions) (qvec : Vec) (tbl : TableData)
    (docs : List Document)
    (hq : s.embedder.embed_query q = .ok qvec)
    (hopen : w.open_fault = false)
    (htbl : st.findTable s.table = some tbl)
    (hnf : w.nearest_fault = false) (hqf : w.query_fault = false)
    (hdec : decodeRows w ((w.search tbl.rows qvec limit).flatten) = some docs) :
    (Store.similarity_search w st s q limit opt).1 = .ok docs ∧
    docs.length = ((w.search tbl.rows qvec limit).flatten).length ∧
    (∀ (i : Nat) (hi : i < docs.length)
       (hj : i < ((w.search tbl.rows qvec limit).flatten).length),
      (docs.get ⟨i, hi⟩).score = (((w.search tbl.rows qvec limit).flatten).get ⟨i, hj⟩).2 ∧
      (docs.get ⟨i, hi⟩).page_content =
        (((w.search tbl.rows qvec limit).flatten).get ⟨i, hj⟩).1.text) := by
  refine ⟨?_, decodeRows_length w _ _ hdec, fun i hi hj => decodeRows_get w _ _ hdec i hi hj⟩
  unfold Store.similarity_search
  rw [hq]
  simp [Engine.open_table, hopen, htbl, hnf, Engine.query, hqf, hdec]

/-- Closed instance of `similarity_search_order_and_score`: one stored row at
distance 0 comes back as one Document with score 0 and the row's text. -/
theorem similarity_search_order_and_score_w :
    (Store.similarity_search W0 stRows s0 "q" 1 ⟨none⟩).1 =
      .ok [⟨"t", [("topic", JsonVal.str "geography")], 0⟩] :=
  (similarity_search_order_and_score W0 stRows s0 "q" 1 ⟨none⟩ [(0 : Rat)]
    ⟨"documents", schemaOf 1, true, [row1]⟩
    [⟨"t", [("topic", JsonVal.str "geography")], 0⟩] rfl rfl rfl rfl rfl rfl).1

/-- Claim C7: under the engine's limit contract (at most `limit` rows over all
returned batches) a successful `similarity_search` returns at most `limit`
Documents; with `limit = 0` it deterministically returns the empty list; and
on a table with no rows it returns the empty list rather than an error, given
the engine only returns stored rows. -/
theorem similarity_search_limit (w : World) (st : EngineState) (s : Store)
    (q : String) (opt : VecStoreOptions) (limit : Nat) (qvec : Vec) (tbl : TableData)
    (hq : s.embedder.embed_query q = .ok qvec)
    (hopen : w.open_fault = false)
    (htbl : st.findTable s.table = some tbl)
    (hnf : w.nearest_fault = false) (hqf : w.query_fault = false) :
    (∀ docs, decodeRows w ((w.search tbl.rows qvec limit).flatten) = some docs →
      ((w.search tbl.rows qvec limit).flatten).length ≤ limit →
      (Store.similarity_search w st s q limit opt).1 = .ok docs ∧ docs.length ≤ limit) ∧
    (((w.search tbl.rows qvec 0).flatten).length ≤ 0 →
      (Store.similarity_search w st s q 0 opt).1 = .ok []) ∧
    (tbl.rows = [] →
      (∀ b ∈ w.search tbl.rows qvec limit, ∀ p ∈ b, p.1 ∈ tbl.rows) →
      (Store.similarity_search w st s q limit opt).1 = .ok []) := by
  have hrun : ∀ (L : Nat) (docs : List Document),
      decodeRows w ((w.search tbl.rows qvec L).flatten) = some docs →
      (Store.similarity_search w st s q L opt).1 = .ok docs := by
    intro L docs hdec
    unfold Store.similarity_search
    rw [hq]
    simp [Engine.open_table, hopen, htbl, hnf, Engine.query, hqf, hdec]
  refine ⟨?_, ?_, ?_⟩
  · intro docs hdec hlen
    exact ⟨hrun limit docs hdec, by rw [decodeRows_length w _ _ hdec]; exact hlen⟩
  · intro h0
    have hnil : ((w.search tbl.rows qvec 0).flatten) = [] :=
      List.length_eq_zero.mp (Nat.le_zero.mp h0)
    exact hrun 0 [] (by rw [hnil]; rfl)
  · intro hrows hmem
    have hnil : ((w.search tbl.rows qvec limit).flatten) = [] := by
      rw [List.flatten_eq_nil_iff]
      intro b hb
      cases hbe : b with
      | nil => rfl
      | cons p ps =>
        have hp := hmem b hb p (by rw [hbe]; exact List.mem_cons_self p ps)
        rw [hrows] at hp
        simp at hp
    exact hrun limit [] (by rw [hnil]; rfl)

/-- Closed instance of `similarity_search_limit`: on the empty table, limit 0
and limit 1 both return the empty list and no error. -/
theorem similarity_search_limit_w :
    (Store.similarity_search W0 stPresent s0 "q" 0 ⟨none⟩).1 = .ok [] ∧
    (Store.similarity_search W0 stPresent s0 "q" 1 ⟨none⟩).1 = .ok [] := by
  have h := similarity_search_limit W0 stPresent s0 "q" ⟨none⟩ 1 [(0 : Rat)]
    ⟨"documents", schemaOf 1, true, []⟩ rfl rfl rfl rfl rfl
  exact ⟨h.2.1 (by decide), h.2.2 rfl (by decide)⟩

/-- Updating the rows of the table found under `name` is what the next lookup
under `name` sees. -/
theorem findTable_setRows :
    ∀ (tables : List TableData) (name : String) (t : TableData) (rows : List Row),
      EngineState.findTable ⟨tables⟩ name = some t →
      EngineState.findTable (EngineState.setRows ⟨tables⟩ name rows) name =
        some { t with rows := rows }
  | [], name, t, rows, h => by simp [EngineState.findTable] at h
  | hd :: tl, name, t, rows, h => by
      cases hbv : hd.name == name with
      | true =>
        simp only [EngineState.findTable, List.find?_cons, hbv, Option.some.injEq] at h
        subst h
        have heq : hd.name = name := by simpa using hbv
        simp [EngineState.findTable, EngineState.setRows, List.find?_cons, hbv, heq]
      | false =>
        simp only [EngineState.findTable, List.find?_cons, hbv] at h
        have ih := findTable_setRows tl name t rows h
        simp only [EngineState.findTable, EngineState.setRows] at ih
        simp only [EngineState.findTable, EngineState.setRows, List.map_cons,
          List.find?_cons, hbv, Bool.false_eq_true, if_false]
        exact ih

/-- Claim C8: round trip. Adding the Paris document succeeds and appends exactly one
record holding the original text and the JSON-encoded metadata; a subsequent
`similarity_search` whose engine answer is that record returns one Document
whose `page_content` equals the original string and whose decoded metadata
equals the original mapping (given the codec decodes what it encoded), with
the engine-reported distance as its score. -/
theorem add_then_search_round_trip (w : World) (st : EngineState) (s : Store)
    (opt : VecStoreOptions) (v qvec : Vec) (tbl : TableData) (dist : Rat)
    (hemb : (opt.embedder.getD s.embedder).embed_documents
        [parisDoc.page_content] = .ok [v])
    (hopen : w.open_fault = false) (hschema : w.schema_fault = false)
    (htbl : st.findTable s.table = some tbl) (happ : w.append_fault = false)
    (hdim : (v.length : Int) = s.vector_dimensions)
    (hrt : w.jsonDecode (w.jsonEncode parisDoc.metadata) = some parisDoc.metadata)
    (hq : s.embedder.embed_query "capital of France" = .ok qvec)
    (hnf : w.nearest_fault = false) (hqf : w.query_fault = false)
    (hsearch : w.search
        (tbl.rows ++ [⟨w.uuid 0, parisDoc.page_content, w.jsonEncode parisDoc.metadata, v⟩])
        qvec 1 =
      [[(⟨w.uuid 0, parisDoc.page_content, w.jsonEncode parisDoc.metadata, v⟩, dist)]]) :
    (Store.add_documents w st s [parisDoc] opt).1 = .ok [w.uuid 0] ∧
    (Store.similarity_search w (Store.add_documents w st s [parisDoc] opt).2.1 s
        "capital of France" 1 opt).1 =
      .ok [⟨parisDoc.page_content, parisDoc.metadata, dist⟩] := by
  have hr0 : mkRecords w 0 [(parisDoc, v)] =
      [⟨w.uuid 0, parisDoc.page_content, w.jsonEncode parisDoc.metadata, v⟩] := rfl
  have hrun : Store.add_documents w st s [parisDoc] opt =
      (.ok [w.uuid 0],
       EngineState.setRows st s.table (tbl.rows ++
         [⟨w.uuid 0, parisDoc.page_content, w.jsonEncode parisDoc.metadata, v⟩]),
       [.openTable s.table, .openTable s.table, .appendRows s.table 1]) := by
    unfold Store.add_documents
    simp only [List.map_cons, List.map_nil]
    rw [hemb]
    simp [Engine.open_table, hopen, htbl, hschema, Engine.append, happ, hr0, hdim]
  have hfind : EngineState.findTable
      (EngineState.setRows st s.table (tbl.rows ++
        [⟨w.uuid 0, parisDoc.page_content, w.jsonEncode parisDoc.metadata, v⟩])) s.table =
      some { tbl with rows := tbl.rows ++
        [⟨w.uuid 0, parisDoc.page_content, w.jsonEncode parisDoc.metadata, v⟩] } :=
    findTable_setRows st.tables s.table tbl _ htbl
  refine ⟨by rw [hrun], ?_⟩
  rw [hrun]
  unfold Store.similarity_search
  rw [hq]
  simp [Engine.open_table, hopen, hfind, hnf, Engine.query, hqf, hsearch,
    decodeRows_cons, decodeRows, hrt]

/-- Closed instance of `add_then_search_round_trip`: the Paris document round
trips through the fault-free world. -/
theorem add_then_search_round_trip_w :
    (Store.add_documents W0 stPresent s0 [parisDoc] ⟨none⟩).1 = .ok [W0.uuid 0] ∧
    (Store.similarity_search W0 (Store.add_documents W0 stPresent s0 [parisDoc] ⟨none⟩).2.1 s0
        "capital of France" 1 ⟨none⟩).1 =
      .ok [⟨parisDoc.page_content, parisDoc.metadata, (0 : Rat)⟩] :=
  add_then_search_round_trip W0 stPresent s0 ⟨none⟩ [(0 : Rat)] [(0 : Rat)]
    ⟨"documents", schemaOf 1, true, []⟩ 0 rfl rfl rfl rfl rfl (by decide) rfl rfl rfl rfl rfl

end LanceDB
